import Mathlib

/-!
Verification development for the clinical-report service (`src/app.py`).

The repository's core is a document renderer `generar_docx_desde_json`
that takes a loosely-typed JSON dictionary and produces a Word document,
plus a Pydantic schema (`InformeGeriatrico`) and one HTTP endpoint
(`procesar_informe`).  We shallowly embed:

* JSON-like Python values (`JValue`) with Python truthiness, `dict.get`,
  `str()`, iteration, `str.upper`, `", ".join`, and the dynamic errors
  (`AttributeError` / `TypeError`) those operations can raise;
* the renderer as a pure function from a `JValue` to a document made of
  tables, paragraphs and text runs, in the `Except PyError` monad;
* Python `datetime.fromisoformat` (restricted to the
  `YYYY-MM-DD[<sep>HH:MM[:SS]]` shapes the service exercises) together
  with `strftime` day-name / date / time formatting;
* the endpoint as a function of the request and of oracles for the
  external collaborators (whisper, Gemini, `json.loads`), returning a
  response and a trace of file-system effects.
-/

set_option maxRecDepth 10000

/-- JSON-like Python values as passed to the renderer (`data: dict`). -/
inductive JValue where
  | null : JValue
  | jstr : String → JValue
  | jint : Int → JValue
  | jlist : List JValue → JValue
  | jobj : List (String × JValue) → JValue
deriving Inhabited

/-- Dynamic errors the rendering code can raise on ill-shaped input. -/
inductive PyError where
  | attributeError : String → PyError
  | typeError : String → PyError
deriving Repr, DecidableEq

/-- Python truthiness (`if valor:`): empty/zero/`None` values are falsy. -/
def truthy : JValue → Bool
  | .null => false
  | .jstr s => !s.isEmpty
  | .jint n => n != 0
  | .jlist xs => !xs.isEmpty
  | .jobj fs => !fs.isEmpty

/-- Python `d.get(key, default)`: defined on dicts, `AttributeError` otherwise. -/
def JValue.pyGet : JValue → String → JValue → Except PyError JValue
  | .jobj fs, key, dflt => .ok ((fs.lookup key).getD dflt)
  | _, _, _ => .error (.attributeError "get")

/-- Python `str(v)` / f-string formatting of a value.  The list/dict cases
never arise on the rendering paths proved about below, so their Python
`repr`-style output is abbreviated. -/
def pyStr : JValue → String
  | .null => "None"
  | .jstr s => s
  | .jint n => toString n
  | .jlist _ => "<list>"
  | .jobj _ => "<dict>"

/-- Python `v + suffix` where `suffix` is a string: `TypeError` unless `v` is a string. -/
def pyAddStr : JValue → String → Except PyError String
  | .jstr s, t => .ok (s ++ t)
  | _, _ => .error (.typeError "can only concatenate str")

/-- ASCII uppercase of one character (kept kernel-reducible). -/
def pyCharUpper (c : Char) : Char :=
  if 'a' ≤ c ∧ c ≤ 'z' then Char.ofNat (c.toNat - 32) else c

/-- ASCII uppercase of a string, as `str.upper` acts on the inputs here. -/
def pyUpperStr (s : String) : String := ⟨s.data.map pyCharUpper⟩

/-- Python `v.upper()` (ASCII case mapping suffices for the inputs considered). -/
def pyUpper : JValue → Except PyError String
  | .jstr s => .ok (pyUpperStr s)
  | _ => .error (.attributeError "upper")

/-- Python iteration (`for x in v`): lists yield elements, strings yield
characters, dicts yield their keys; other values raise `TypeError`. -/
def pyIter : JValue → Except PyError (List JValue)
  | .jlist xs => .ok xs
  | .jstr s => .ok (s.data.map (fun c => .jstr (String.singleton c)))
  | .jobj fs => .ok (fs.map (fun p => JValue.jstr p.1))
  | _ => .error (.typeError "not iterable")

/-- Python `d.values()` / `d.items()` access: the underlying field list of a
dict, `AttributeError` on anything else. -/
def pyFields : JValue → Except PyError (List (String × JValue))
  | .jobj fs => .ok fs
  | _ => .error (.attributeError "values")

/-- Python `", ".join`-style element check: every element must be a string. -/
def pyStrList : List JValue → Except PyError (List String)
  | [] => .ok []
  | .jstr s :: rest => do
      let tl ← pyStrList rest
      .ok (s :: tl)
  | _ :: _ => .error (.typeError "sequence item: expected str instance")

/-- Python `sep.join(vals)`. -/
def pyJoin (sep : String) (vals : List JValue) : Except PyError String := do
  let strs ← pyStrList vals
  .ok (String.intercalate sep strs)

/-- Python `v.text`-like run-content check performed by `python-docx`:
`add_run` expects text. -/
def pyRunText : JValue → Except PyError String
  | .jstr s => .ok s
  | _ => .error (.typeError "add_run expects text")

@[simp] theorem ok_bind {ε α β : Type} (a : α) (f : α → Except ε β) :
    (Except.ok a >>= f) = f a := rfl

@[simp] theorem error_bind {ε α β : Type} (e : ε) (f : α → Except ε β) :
    ((Except.error e : Except ε α) >>= f) = Except.error e := rfl

/-! ## Dates: `datetime.fromisoformat` and `strftime` -/

/-- Result of a successful `datetime.fromisoformat`. -/
structure PyDateTime where
  year : Nat
  month : Nat
  day : Nat
  hour : Nat
  minute : Nat
  second : Nat
deriving Repr, DecidableEq

def digitVal (c : Char) : Option Nat :=
  if c.isDigit then some (c.toNat - 48) else none

def parse2 (c1 c2 : Char) : Option Nat := do
  let d1 ← digitVal c1
  let d2 ← digitVal c2
  some (d1 * 10 + d2)

def parse4 (c1 c2 c3 c4 : Char) : Option Nat := do
  let hi ← parse2 c1 c2
  let lo ← parse2 c3 c4
  some (hi * 100 + lo)

def isLeap (y : Nat) : Bool :=
  y % 4 == 0 && (y % 100 != 0 || y % 400 == 0)

def daysInMonth (y m : Nat) : Nat :=
  if m == 2 then (if isLeap y then 29 else 28)
  else if m == 4 || m == 6 || m == 9 || m == 11 then 30
  else 31

/-- Time-of-day part `HH:MM` or `HH:MM:SS`. -/
def parseTimePart : List Char → Option (Nat × Nat × Nat)
  | [h1, h2, ':', m1, m2] => do
      let h ← parse2 h1 h2
      let mi ← parse2 m1 m2
      if h ≤ 23 && mi ≤ 59 then some (h, mi, 0) else none
  | [h1, h2, ':', m1, m2, ':', s1, s2] => do
      let h ← parse2 h1 h2
      let mi ← parse2 m1 m2
      let sec ← parse2 s1 s2
      if h ≤ 23 && mi ≤ 59 && sec ≤ 59 then some (h, mi, sec) else none
  | _ => none

/-- `datetime.fromisoformat`, restricted to `YYYY-MM-DD` optionally followed
by a one-character separator and `HH:MM[:SS]` — the shapes this service
produces and consumes.  Out-of-range fields are rejected, as in Python. -/
def parseIso (s : String) : Option PyDateTime :=
  match s.data with
  | y1 :: y2 :: y3 :: y4 :: '-' :: mo1 :: mo2 :: '-' :: d1 :: d2 :: rest => do
      let y ← parse4 y1 y2 y3 y4
      let mo ← parse2 mo1 mo2
      let d ← parse2 d1 d2
      if 1 ≤ y && 1 ≤ mo && mo ≤ 12 && 1 ≤ d && d ≤ daysInMonth y mo then
        match rest with
        | [] => some ⟨y, mo, d, 0, 0, 0⟩
        | _ :: timeChars => do
            let t ← parseTimePart timeChars
            some ⟨y, mo, d, t.1, t.2.1, t.2.2⟩
      else none
  | _ => none

/-- Sakamoto's table used to compute the weekday of a Gregorian date. -/
def sakTable : List Nat := [0, 3, 2, 5, 0, 3, 5, 1, 4, 6, 2, 4]

/-- Day of week of a Gregorian date, `0 = Sunday`, as `strftime` uses. -/
def dayOfWeek (y m d : Nat) : Fin 7 :=
  let yy := if m < 3 then y - 1 else y
  ⟨(yy + yy / 4 - yy / 100 + yy / 400 + sakTable.getD (m - 1) 0 + d) % 7,
   Nat.mod_lt _ (by norm_num)⟩

/-- `strftime("%A")` under the default (English) locale. -/
def englishDayName : Fin 7 → String
  | 0 => "Sunday"
  | 1 => "Monday"
  | 2 => "Tuesday"
  | 3 => "Wednesday"
  | 4 => "Thursday"
  | 5 => "Friday"
  | 6 => "Saturday"

/-- Zero-padding to two digits, as `%d`, `%m`, `%y`, `%H`, `%M` do. -/
def pad2 (n : Nat) : String :=
  if n < 10 then "0" ++ toString n else toString n

/-- `strftime("%d/%m/%y")`. -/
def fmtDate (dt : PyDateTime) : String :=
  pad2 dt.day ++ "/" ++ pad2 dt.month ++ "/" ++ pad2 (dt.year % 100)

/-- `strftime("%H:%M")`. -/
def fmtTime (dt : PyDateTime) : String :=
  pad2 dt.hour ++ ":" ++ pad2 dt.minute

/-- `traducir_dia` from `src/app.py`: English weekday names to Spanish,
falling back to the input. -/
def traducir_dia (dia_en : String) : String :=
  (([("Monday", "Lunes"), ("Tuesday", "Martes"), ("Wednesday", "Miércoles"),
     ("Thursday", "Jueves"), ("Friday", "Viernes"), ("Saturday", "Sábado"),
     ("Sunday", "Domingo")] : List (String × String)).lookup dia_en).getD dia_en

/-! ## The document model -/

/-- A text run: `agregar_texto` / `agregar_texto_negrita` produce these
(the Arial font is fixed and therefore not recorded). -/
structure Run where
  text : String
  bold : Bool
  size : Nat
deriving Repr, DecidableEq

/-- `agregar_texto_negrita(p, texto, fuente)`: a bold run. -/
def agregar_texto_negrita (texto : String) (fuente : Nat) : Run :=
  ⟨texto, true, fuente⟩

/-- `agregar_texto(p, texto, fuente)`: a regular run. -/
def agregar_texto (texto : String) (fuente : Nat) : Run :=
  ⟨texto, false, fuente⟩

/-- A document block: a table (column count and rows, each row a list of
cells, each cell the run list of its paragraph) or a plain paragraph. -/
inductive Block where
  | table : Nat → List (List (List Run)) → Block
  | para : List Run → Block

def Block.isTable : Block → Bool
  | .table _ _ => true
  | .para _ => false

def Block.isPara : Block → Bool
  | .table _ _ => false
  | .para _ => true

/-! ## The renderer, `generar_docx_desde_json` -/

def encabezado_paciente : List String :=
  ["AP PATERNO", "AP MATERNO", "NOMBRES", "HISTORIA CLÍNICA", "NO CAMA"]

def encabezados : List String :=
  ["FECHA Y HORA", "NOTAS DE EVOLUCIÓN", "ÓRDENES MÉDICAS"]

/-- Patient-table data row contents (lines 146-154 of `app.py`): the three
name fields are added as run text directly, the two numbers go through
`str()`. -/
def datos_paciente (data : JValue) : Except PyError (List String) := do
  let paciente ← data.pyGet "paciente" (.jobj [])
  let ap ← paciente.pyGet "apellido_paterno" (.jstr "")
  let am ← paciente.pyGet "apellido_materno" (.jstr "")
  let nom ← paciente.pyGet "nombres" (.jstr "")
  let nh ← paciente.pyGet "n_historia" (.jstr "")
  let nc ← paciente.pyGet "n_cama" (.jstr "")
  let t1 ← pyRunText ap
  let t2 ← pyRunText am
  let t3 ← pyRunText nom
  .ok [t1, t2, t3, pyStr nh, pyStr nc]

/-- Column 1 (lines 188-214): weekday/date/time lines when the timestamp
parses, then the vitals in fixed `PA`,`FC`,`FR`,`O2` order, each filtered
by truthiness.  The `datetime` work sits in a `try/except` that also
swallows the `TypeError` of a non-string timestamp. -/
def col1Runs (data : JValue) : Except PyError (List Run) := do
  let fecha_iso ← data.pyGet "fecha_hora" (.jstr "")
  let parsed : Option PyDateTime :=
    match fecha_iso with
    | .jstr s => parseIso s
    | _ => none
  let dia_semana :=
    match parsed with
    | some dt => traducir_dia (englishDayName (dayOfWeek dt.year dt.month dt.day))
    | none => ""
  let fecha_formateada :=
    match parsed with
    | some dt => fmtDate dt
    | none => ""
  let hora :=
    match parsed with
    | some dt => fmtTime dt
    | none => ""
  let signos_vitales ← data.pyGet "signos_vitales" (.jobj [])
  let datePart :=
    (if dia_semana.isEmpty then [] else [agregar_texto_negrita (dia_semana ++ "\n") 8]) ++
    (if fecha_formateada.isEmpty then [] else [agregar_texto (fecha_formateada ++ "\n") 8]) ++
    (if hora.isEmpty then [] else [agregar_texto (hora ++ "\n\n") 8])
  let vPA ← signos_vitales.pyGet "PA" .null
  let vFC ← signos_vitales.pyGet "FC" .null
  let vFR ← signos_vitales.pyGet "FR" .null
  let vO2 ← signos_vitales.pyGet "O2" .null
  let vital := fun (key : String) (valor : JValue) =>
    if truthy valor then
      [agregar_texto_negrita (key ++ ": ") 8, agregar_texto (pyStr valor ++ "\n") 8]
    else []
  .ok (datePart ++ vital "PA" vPA ++ vital "FC" vFC ++ vital "FR" vFR ++ vital "O2" vO2)

/-- The static label table `campos_fisicos` (lines 239-246). -/
def campos_fisicos : List (String × String) :=
  [("cuello", "Cuello"), ("torax_anterior", "Tórax anterior"),
   ("torax_posterior", "Tórax posterior"), ("abdomen", "Abdomen"),
   ("genitourinario", "Genitourinario"), ("extremidades", "Extremidades")]

/-- One iteration of the loop over `campos_fisicos` (lines 248-252). -/
def regFieldRuns (evolucion : JValue) (key label : String) :
    Except PyError (List Run) := do
  let valor ← evolucion.pyGet key .null
  if truthy valor then
    .ok [agregar_texto_negrita (label ++ ": ") 8, agregar_texto (pyStr valor ++ "\n") 8]
  else .ok []

/-- The diagnosis loop body (lines 230-231). -/
def diagLines : List JValue → Except PyError (List Run)
  | [] => .ok []
  | d :: rest => do
      let u ← pyUpper d
      let tl ← diagLines rest
      .ok (agregar_texto ("• " ++ u ++ "\n") 8 :: tl)

/-- The neurological block (lines 258-272): guarded by the dict being
truthy and some value being truthy; collects state, focal deficit and
`Glasgow <score>` in that order and joins them with `", "`. -/
def enbPart (neurologico : JValue) : Except PyError (List Run) :=
  if truthy neurologico then do
    let fs ← pyFields neurologico
    if (fs.map Prod.snd).any truthy then do
      let estado ← neurologico.pyGet "estado" .null
      let foco ← neurologico.pyGet "foco_motor" .null
      let glasgow ← neurologico.pyGet "glasgow" .null
      let enb_texto : List JValue :=
        (if truthy estado then [estado] else []) ++
        (if truthy foco then [foco] else []) ++
        (if truthy glasgow then [JValue.jstr ("Glasgow " ++ pyStr glasgow)] else [])
      if enb_texto.isEmpty then .ok []
      else do
        let joined ← pyJoin ", " enb_texto
        .ok [agregar_texto_negrita "\nENB: " 8, agregar_texto (joined ++ "\n") 8]
    else .ok []
  else .ok []

/-- The description sentence block (lines 225-226). -/
def descPart (descripcion : JValue) : Except PyError (List Run) :=
  if truthy descripcion then do
    let s ← pyAddStr descripcion "\n\n"
    .ok [agregar_texto s 8]
  else .ok []

/-- The diagnosis block (lines 228-232). -/
def diagPart (diagnosticos : JValue) : Except PyError (List Run) :=
  if truthy diagnosticos then do
    let items ← pyIter diagnosticos
    let lines ← diagLines items
    .ok ([agregar_texto_negrita "DIAGNÓSTICOS:\n" 8] ++ lines ++ [agregar_texto "\n" 8])
  else .ok []

/-- The general-state block (lines 234-236). -/
def sPartRuns (eg : JValue) : List Run :=
  if truthy eg then
    [agregar_texto_negrita "S: " 8, agregar_texto (pyStr eg ++ "\n\n") 8]
  else []

/-- The general physical exam block (lines 254-256). -/
def efgPartRuns (efg : JValue) : List Run :=
  if truthy efg then
    [agregar_texto_negrita "\nEFG: " 8, agregar_texto (pyStr efg ++ "\n") 8]
  else []

/-- The laboratory block (lines 275-279). -/
def bhPartRuns (bh : JValue) : List Run :=
  if truthy bh then
    [agregar_texto_negrita "\nBH: " 8, agregar_texto (pyStr bh ++ "\n") 8]
  else []

/-- The imaging block (lines 275-282). -/
def rdPartRuns (rd : JValue) : List Run :=
  if truthy rd then
    [agregar_texto_negrita "\nRD: " 8, agregar_texto (pyStr rd ++ "\n") 8]
  else []

/-- Column 2 (lines 216-282), in the source's fixed order: description,
diagnoses, general state, regional findings, EFG, ENB, BH, RD. -/
def col2Runs (data : JValue) : Except PyError (List Run) := do
  let descripcion ← data.pyGet "descripcion_paciente" (.jstr "")
  let diagnosticos ← data.pyGet "diagnosticos" (.jlist [])
  let evolucion ← data.pyGet "evolucion" (.jobj [])
  let dp ← descPart descripcion
  let gp ← diagPart diagnosticos
  let eg ← evolucion.pyGet "estado_general" .null
  let r1 ← regFieldRuns evolucion "cuello" "Cuello"
  let r2 ← regFieldRuns evolucion "torax_anterior" "Tórax anterior"
  let r3 ← regFieldRuns evolucion "torax_posterior" "Tórax posterior"
  let r4 ← regFieldRuns evolucion "abdomen" "Abdomen"
  let r5 ← regFieldRuns evolucion "genitourinario" "Genitourinario"
  let r6 ← regFieldRuns evolucion "extremidades" "Extremidades"
  let efg ← evolucion.pyGet "EFG" .null
  let neurologico ← evolucion.pyGet "neurologico" (.jobj [])
  let enb ← enbPart neurologico
  let bh ← data.pyGet "BH" (.jstr "")
  let rd ← data.pyGet "RD" (.jstr "")
  .ok (dp ++ gp ++ sPartRuns eg ++ r1 ++ r2 ++ r3 ++ r4 ++ r5 ++ r6 ++
       efgPartRuns efg ++ enb ++ bhPartRuns bh ++ rdPartRuns rd)

/-- The numbered medical-orders loop (lines 291-294): 1-based numbering. -/
def ordenLines : Nat → List JValue → List Run
  | _, [] => []
  | i, o :: rest =>
      agregar_texto (toString (i + 1) ++ ". " ++ pyStr o ++ "\n") 8 ::
      ordenLines (i + 1) rest

/-- The non-zero fluid lines of one section (lines 305-307 / 311-313):
sub-fields are filtered by truthiness, so zero values are dropped. -/
def nonzeroLines : List (String × JValue) → List Run
  | [] => []
  | kv :: rest =>
      (if truthy kv.2 then [agregar_texto (kv.1 ++ ": " ++ pyStr kv.2 ++ "\n") 8] else []) ++
      nonzeroLines rest

/-- The fluid-balance tail of column 3 (lines 296-313): sections appear
only when some sub-field is truthy; a blank line precedes the block. -/
def fluidRuns (inFields egFields : List (String × JValue)) : List Run :=
  if (inFields.map Prod.snd).any truthy || (egFields.map Prod.snd).any truthy then
    agregar_texto "\n" 8 ::
    ((if (inFields.map Prod.snd).any truthy then
        agregar_texto_negrita "INGRESOS:\n" 8 :: nonzeroLines inFields
      else []) ++
     (if (egFields.map Prod.snd).any truthy then
        agregar_texto_negrita "\nEGRESOS:\n" 8 :: nonzeroLines egFields
      else []))
  else []

/-- Column 3 (lines 284-313): numbered orders, then the fluid balance. -/
def col3Runs (data : JValue) : Except PyError (List Run) := do
  let ordenes ← data.pyGet "ordenes_medicas" (.jlist [])
  let items ← pyIter ordenes
  let ingresos ← data.pyGet "ingresos" (.jobj [])
  let egresos ← data.pyGet "egresos" (.jobj [])
  let inFields ← pyFields ingresos
  let egFields ← pyFields egresos
  .ok (ordenLines 0 items ++ fluidRuns inFields egFields)

/-- `generar_docx_desde_json` (lines 113-319): the whole document — the
5-column patient table, one spacer paragraph, and the 3-column clinical
table, each table with a bold 9pt header row and one data row. -/
def generar_docx_desde_json (data : JValue) : Except PyError (List Block) := do
  let datos ← datos_paciente data
  let c1 ← col1Runs data
  let c2 ← col2Runs data
  let c3 ← col3Runs data
  .ok [Block.table 5 [encabezado_paciente.map (fun t => [agregar_texto_negrita t 9]),
                      datos.map (fun d => [agregar_texto d 9])],
       Block.para [],
       Block.table 3 [encabezados.map (fun t => [agregar_texto_negrita t 9]),
                      [c1, c2, c3]]]

/-! ## Typed report values

The Pydantic schema (`InformeGeriatrico`, lines 28-90 of `app.py`)
declares the shape of a report.  At rendering time every field is read
with defaulting `dict.get`, so for the renderer theorems each field is
optional; `none` means the key is absent from the JSON object. -/

structure RPaciente where
  apellido_paterno : Option String := none
  apellido_materno : Option String := none
  nombres : Option String := none
  edad : Option Int := none
  sexo : Option String := none
  n_cama : Option Int := none
  n_historia : Option Int := none

structure RSignos where
  PA : Option String := none
  FC : Option Int := none
  FR : Option Int := none
  O2 : Option Int := none

structure RNeuro where
  estado : Option String := none
  glasgow : Option String := none
  foco_motor : Option String := none

structure REvolucion where
  estado_general : Option String := none
  EFG : Option String := none
  EFR : Option String := none
  cuello : Option String := none
  torax_anterior : Option String := none
  torax_posterior : Option String := none
  abdomen : Option String := none
  genitourinario : Option String := none
  extremidades : Option String := none
  neurologico : Option RNeuro := none

structure RIngresos where
  VO : Option Int := none
  VP : Option Int := none
  AM : Option Int := none
  OTROS : Option Int := none
  TOTAL : Option Int := none

structure REgresos where
  D : Option Int := none
  C : Option Int := none
  PI : Option Int := none
  OTROS : Option Int := none
  TOTAL : Option Int := none

/-- The closed report-type enumeration (`TipoInforme`, lines 29-30). -/
inductive TipoInforme where
  | EVOLUCION_GERIATRICA
deriving Repr, DecidableEq

def TipoInforme.value : TipoInforme → String
  | .EVOLUCION_GERIATRICA => "EVOLUCION_GERIATRICA"

/-- `TipoInforme(tipo_informe)`: membership test of the closed enum. -/
def TipoInforme.ofString (s : String) : Option TipoInforme :=
  if s = "EVOLUCION_GERIATRICA" then some .EVOLUCION_GERIATRICA else none

structure RReport where
  tipo_informe : Option TipoInforme := none
  paciente : Option RPaciente := none
  fecha_hora : Option String := none
  signos_vitales : Option RSignos := none
  diagnosticos : Option (List String) := none
  evolucion : Option REvolucion := none
  ingresos : Option RIngresos := none
  egresos : Option REgresos := none
  ordenes_medicas : Option (List String) := none
  BH : Option String := none
  RD : Option String := none
  descripcion_paciente : Option String := none

/-- Builds a JSON object from optional fields: `none` means absent key. -/
def optFields : List (String × Option JValue) → List (String × JValue)
  | [] => []
  | (k, some v) :: tl => (k, v) :: optFields tl
  | (_, none) :: tl => optFields tl

def RPaciente.fields (p : RPaciente) : List (String × Option JValue) :=
  [("apellido_paterno", p.apellido_paterno.map JValue.jstr),
   ("apellido_materno", p.apellido_materno.map JValue.jstr),
   ("nombres", p.nombres.map JValue.jstr),
   ("edad", p.edad.map JValue.jint),
   ("sexo", p.sexo.map JValue.jstr),
   ("n_cama", p.n_cama.map JValue.jint),
   ("n_historia", p.n_historia.map JValue.jint)]

def RPaciente.toJson (p : RPaciente) : JValue := .jobj (optFields p.fields)

def RSignos.fields (s : RSignos) : List (String × Option JValue) :=
  [("PA", s.PA.map JValue.jstr),
   ("FC", s.FC.map JValue.jint),
   ("FR", s.FR.map JValue.jint),
   ("O2", s.O2.map JValue.jint)]

def RSignos.toJson (s : RSignos) : JValue := .jobj (optFields s.fields)

def RNeuro.fields (n : RNeuro) : List (String × Option JValue) :=
  [("estado", n.estado.map JValue.jstr),
   ("glasgow", n.glasgow.map JValue.jstr),
   ("foco_motor", n.foco_motor.map JValue.jstr)]

def RNeuro.toJson (n : RNeuro) : JValue := .jobj (optFields n.fields)

def REvolucion.fields (e : REvolucion) : List (String × Option JValue) :=
  [("estado_general", e.estado_general.map JValue.jstr),
   ("EFG", e.EFG.map JValue.jstr),
   ("EFR", e.EFR.map JValue.jstr),
   ("cuello", e.cuello.map JValue.jstr),
   ("torax_anterior", e.torax_anterior.map JValue.jstr),
   ("torax_posterior", e.torax_posterior.map JValue.jstr),
   ("abdomen", e.abdomen.map JValue.jstr),
   ("genitourinario", e.genitourinario.map JValue.jstr),
   ("extremidades", e.extremidades.map JValue.jstr),
   ("neurologico", e.neurologico.map RNeuro.toJson)]

def REvolucion.toJson (e : REvolucion) : JValue := .jobj (optFields e.fields)

def RIngresos.fields (i : RIngresos) : List (String × Option JValue) :=
  [("VO", i.VO.map JValue.jint),
   ("VP", i.VP.map JValue.jint),
   ("AM", i.AM.map JValue.jint),
   ("OTROS", i.OTROS.map JValue.jint),
   ("TOTAL", i.TOTAL.map JValue.jint)]

def RIngresos.toJson (i : RIngresos) : JValue := .jobj (optFields i.fields)

def REgresos.fields (e : REgresos) : List (String × Option JValue) :=
  [("D", e.D.map JValue.jint),
   ("C", e.C.map JValue.jint),
   ("PI", e.PI.map JValue.jint),
   ("OTROS", e.OTROS.map JValue.jint),
   ("TOTAL", e.TOTAL.map JValue.jint)]

def REgresos.toJson (e : REgresos) : JValue := .jobj (optFields e.fields)

def RReport.fields (r : RReport) : List (String × Option JValue) :=
  [("tipo_informe", r.tipo_informe.map (fun t => JValue.jstr t.value)),
   ("paciente", r.paciente.map RPaciente.toJson),
   ("fecha_hora", r.fecha_hora.map JValue.jstr),
   ("signos_vitales", r.signos_vitales.map RSignos.toJson),
   ("diagnosticos", r.diagnosticos.map (fun l => JValue.jlist (l.map JValue.jstr))),
   ("evolucion", r.evolucion.map REvolucion.toJson),
   ("ingresos", r.ingresos.map RIngresos.toJson),
   ("egresos", r.egresos.map REgresos.toJson),
   ("ordenes_medicas", r.ordenes_medicas.map (fun l => JValue.jlist (l.map JValue.jstr))),
   ("BH", r.BH.map JValue.jstr),
   ("RD", r.RD.map JValue.jstr),
   ("descripcion_paciente", r.descripcion_paciente.map JValue.jstr)]

def RReport.toJson (r : RReport) : JValue := .jobj (optFields r.fields)

/-! ## Looking up keys of `optFields` objects -/

theorem lookup_optFields_notMem (k : String) (l : List (String × Option JValue))
    (h : ∀ p ∈ l, (k == p.1) = false) :
    List.lookup k (optFields l) = none := by
  induction l with
  | nil => rfl
  | cons p tl ih =>
      obtain ⟨k2, v⟩ := p
      have hk : (k == k2) = false := h ⟨k2, v⟩ (List.mem_cons_self _ _)
      have htl : ∀ p ∈ tl, (k == p.1) = false := fun p hp => h p (List.mem_cons_of_mem _ hp)
      cases v with
      | some x => simp [optFields, List.lookup, hk, ih htl]
      | none => simpa [optFields] using ih htl

theorem lookup_optFields (k : String) (l : List (String × Option JValue))
    (h : (l.map Prod.fst).Nodup) :
    List.lookup k (optFields l) = (l.find? (fun p => k == p.1)).bind Prod.snd := by
  induction l with
  | nil => rfl
  | cons p tl ih =>
      obtain ⟨k2, v⟩ := p
      simp only [List.map_cons, List.nodup_cons] at h
      by_cases hk : k = k2
      · subst hk
        cases v with
        | some x => simp [optFields, List.lookup, List.find?]
        | none =>
            have hnm : ∀ p ∈ tl, (k == p.1) = false := by
              intro p hp
              have : p.1 ∈ tl.map Prod.fst := List.mem_map_of_mem _ hp
              have hne : k ≠ p.1 := fun he => h.1 (he ▸ this)
              simpa using hne
            simp [optFields, List.find?, lookup_optFields_notMem k tl hnm]
      · have hk2 : (k == k2) = false := by simpa using hk
        cases v with
        | some x => simp [optFields, List.lookup, List.find?, hk2, ih h.2]
        | none =>
            have := ih h.2
            simp only [optFields, List.find?, hk2]
            simpa using this

theorem pyGet_optFields (l : List (String × Option JValue)) (k : String) (d : JValue)
    (h : (l.map Prod.fst).Nodup) :
    (JValue.jobj (optFields l)).pyGet k d =
      .ok (((l.find? (fun p => k == p.1)).bind Prod.snd).getD d) := by
  simp [JValue.pyGet, lookup_optFields k l h]

theorem report_keys_nodup (r : RReport) : ((RReport.fields r).map Prod.fst).Nodup := by
  have h : (RReport.fields r).map Prod.fst =
      ["tipo_informe", "paciente", "fecha_hora", "signos_vitales", "diagnosticos",
       "evolucion", "ingresos", "egresos", "ordenes_medicas", "BH", "RD",
       "descripcion_paciente"] := rfl
  rw [h]; decide

theorem paciente_keys_nodup (p : RPaciente) : ((RPaciente.fields p).map Prod.fst).Nodup := by
  have h : (RPaciente.fields p).map Prod.fst =
      ["apellido_paterno", "apellido_materno", "nombres", "edad", "sexo",
       "n_cama", "n_historia"] := rfl
  rw [h]; decide

theorem signos_keys_nodup (s : RSignos) : ((RSignos.fields s).map Prod.fst).Nodup := by
  have h : (RSignos.fields s).map Prod.fst = ["PA", "FC", "FR", "O2"] := rfl
  rw [h]; decide

theorem neuro_keys_nodup (n : RNeuro) : ((RNeuro.fields n).map Prod.fst).Nodup := by
  have h : (RNeuro.fields n).map Prod.fst = ["estado", "glasgow", "foco_motor"] := rfl
  rw [h]; decide

theorem evolucion_keys_nodup (e : REvolucion) : ((REvolucion.fields e).map Prod.fst).Nodup := by
  have h : (REvolucion.fields e).map Prod.fst =
      ["estado_general", "EFG", "EFR", "cuello", "torax_anterior", "torax_posterior",
       "abdomen", "genitourinario", "extremidades", "neurologico"] := rfl
  rw [h]; decide

theorem ingresos_keys_nodup (i : RIngresos) : ((RIngresos.fields i).map Prod.fst).Nodup := by
  have h : (RIngresos.fields i).map Prod.fst = ["VO", "VP", "AM", "OTROS", "TOTAL"] := rfl
  rw [h]; decide

theorem egresos_keys_nodup (e : REgresos) : ((REgresos.fields e).map Prod.fst).Nodup := by
  have h : (REgresos.fields e).map Prod.fst = ["D", "C", "PI", "OTROS", "TOTAL"] := rfl
  rw [h]; decide

theorem pyGet_report_paciente (r : RReport) (d : JValue) :
    (RReport.toJson r).pyGet "paciente" d = .ok ((r.paciente.map RPaciente.toJson).getD d) := by
  rw [RReport.toJson, pyGet_optFields (RReport.fields r) _ _ (report_keys_nodup r)]; rfl

theorem pyGet_report_fecha (r : RReport) (d : JValue) :
    (RReport.toJson r).pyGet "fecha_hora" d = .ok ((r.fecha_hora.map JValue.jstr).getD d) := by
  rw [RReport.toJson, pyGet_optFields (RReport.fields r) _ _ (report_keys_nodup r)]; rfl

theorem pyGet_report_signos (r : RReport) (d : JValue) :
    (RReport.toJson r).pyGet "signos_vitales" d =
      .ok ((r.signos_vitales.map RSignos.toJson).getD d) := by
  rw [RReport.toJson, pyGet_optFields (RReport.fields r) _ _ (report_keys_nodup r)]; rfl

theorem pyGet_report_diagnosticos (r : RReport) (d : JValue) :
    (RReport.toJson r).pyGet "diagnosticos" d =
      .ok ((r.diagnosticos.map (fun l => JValue.jlist (l.map JValue.jstr))).getD d) := by
  rw [RReport.toJson, pyGet_optFields (RReport.fields r) _ _ (report_keys_nodup r)]; rfl

theorem pyGet_report_evolucion (r : RReport) (d : JValue) :
    (RReport.toJson r).pyGet "evolucion" d = .ok ((r.evolucion.map REvolucion.toJson).getD d) := by
  rw [RReport.toJson, pyGet_optFields (RReport.fields r) _ _ (report_keys_nodup r)]; rfl

theorem pyGet_report_ingresos (r : RReport) (d : JValue) :
    (RReport.toJson r).pyGet "ingresos" d = .ok ((r.ingresos.map RIngresos.toJson).getD d) := by
  rw [RReport.toJson, pyGet_optFields (RReport.fields r) _ _ (report_keys_nodup r)]; rfl

theorem pyGet_report_egresos (r : RReport) (d : JValue) :
    (RReport.toJson r).pyGet "egresos" d = .ok ((r.egresos.map REgresos.toJson).getD d) := by
  rw [RReport.toJson, pyGet_optFields (RReport.fields r) _ _ (report_keys_nodup r)]; rfl

theorem pyGet_report_ordenes (r : RReport) (d : JValue) :
    (RReport.toJson r).pyGet "ordenes_medicas" d =
      .ok ((r.ordenes_medicas.map (fun l => JValue.jlist (l.map JValue.jstr))).getD d) := by
  rw [RReport.toJson, pyGet_optFields (RReport.fields r) _ _ (report_keys_nodup r)]; rfl

theorem pyGet_report_BH (r : RReport) (d : JValue) :
    (RReport.toJson r).pyGet "BH" d = .ok ((r.BH.map JValue.jstr).getD d) := by
  rw [RReport.toJson, pyGet_optFields (RReport.fields r) _ _ (report_keys_nodup r)]; rfl

theorem pyGet_report_RD (r : RReport) (d : JValue) :
    (RReport.toJson r).pyGet "RD" d = .ok ((r.RD.map JValue.jstr).getD d) := by
  rw [RReport.toJson, pyGet_optFields (RReport.fields r) _ _ (report_keys_nodup r)]; rfl

theorem pyGet_report_descripcion (r : RReport) (d : JValue) :
    (RReport.toJson r).pyGet "descripcion_paciente" d =
      .ok ((r.descripcion_paciente.map JValue.jstr).getD d) := by
  rw [RReport.toJson, pyGet_optFields (RReport.fields r) _ _ (report_keys_nodup r)]; rfl

theorem pyGet_paciente_ap (p : RPaciente) (d : JValue) :
    (RPaciente.toJson p).pyGet "apellido_paterno" d =
      .ok ((p.apellido_paterno.map JValue.jstr).getD d) := by
  rw [RPaciente.toJson, pyGet_optFields (RPaciente.fields p) _ _ (paciente_keys_nodup p)]; rfl

theorem pyGet_paciente_am (p : RPaciente) (d : JValue) :
    (RPaciente.toJson p).pyGet "apellido_materno" d =
      .ok ((p.apellido_materno.map JValue.jstr).getD d) := by
  rw [RPaciente.toJson, pyGet_optFields (RPaciente.fields p) _ _ (paciente_keys_nodup p)]; rfl

theorem pyGet_paciente_nombres (p : RPaciente) (d : JValue) :
    (RPaciente.toJson p).pyGet "nombres" d = .ok ((p.nombres.map JValue.jstr).getD d) := by
  rw [RPaciente.toJson, pyGet_optFields (RPaciente.fields p) _ _ (paciente_keys_nodup p)]; rfl

theorem pyGet_paciente_nh (p : RPaciente) (d : JValue) :
    (RPaciente.toJson p).pyGet "n_historia" d = .ok ((p.n_historia.map JValue.jint).getD d) := by
  rw [RPaciente.toJson, pyGet_optFields (RPaciente.fields p) _ _ (paciente_keys_nodup p)]; rfl

theorem pyGet_paciente_nc (p : RPaciente) (d : JValue) :
    (RPaciente.toJson p).pyGet "n_cama" d = .ok ((p.n_cama.map JValue.jint).getD d) := by
  rw [RPaciente.toJson, pyGet_optFields (RPaciente.fields p) _ _ (paciente_keys_nodup p)]; rfl

theorem pyGet_signos_PA (s : RSignos) (d : JValue) :
    (RSignos.toJson s).pyGet "PA" d = .ok ((s.PA.map JValue.jstr).getD d) := by
  rw [RSignos.toJson, pyGet_optFields (RSignos.fields s) _ _ (signos_keys_nodup s)]; rfl

theorem pyGet_signos_FC (s : RSignos) (d : JValue) :
    (RSignos.toJson s).pyGet "FC" d = .ok ((s.FC.map JValue.jint).getD d) := by
  rw [RSignos.toJson, pyGet_optFields (RSignos.fields s) _ _ (signos_keys_nodup s)]; rfl

theorem pyGet_signos_FR (s : RSignos) (d : JValue) :
    (RSignos.toJson s).pyGet "FR" d = .ok ((s.FR.map JValue.jint).getD d) := by
  rw [RSignos.toJson, pyGet_optFields (RSignos.fields s) _ _ (signos_keys_nodup s)]; rfl

theorem pyGet_signos_O2 (s : RSignos) (d : JValue) :
    (RSignos.toJson s).pyGet "O2" d = .ok ((s.O2.map JValue.jint).getD d) := by
  rw [RSignos.toJson, pyGet_optFields (RSignos.fields s) _ _ (signos_keys_nodup s)]; rfl

theorem pyGet_evolucion_eg (e : REvolucion) (d : JValue) :
    (REvolucion.toJson e).pyGet "estado_general" d =
      .ok ((e.estado_general.map JValue.jstr).getD d) := by
  rw [REvolucion.toJson, pyGet_optFields (REvolucion.fields e) _ _ (evolucion_keys_nodup e)]; rfl

theorem pyGet_evolucion_EFG (e : REvolucion) (d : JValue) :
    (REvolucion.toJson e).pyGet "EFG" d = .ok ((e.EFG.map JValue.jstr).getD d) := by
  rw [REvolucion.toJson, pyGet_optFields (REvolucion.fields e) _ _ (evolucion_keys_nodup e)]; rfl

theorem pyGet_evolucion_cuello (e : REvolucion) (d : JValue) :
    (REvolucion.toJson e).pyGet "cuello" d = .ok ((e.cuello.map JValue.jstr).getD d) := by
  rw [REvolucion.toJson, pyGet_optFields (REvolucion.fields e) _ _ (evolucion_keys_nodup e)]; rfl

theorem pyGet_evolucion_ta (e : REvolucion) (d : JValue) :
    (REvolucion.toJson e).pyGet "torax_anterior" d =
      .ok ((e.torax_anterior.map JValue.jstr).getD d) := by
  rw [REvolucion.toJson, pyGet_optFields (REvolucion.fields e) _ _ (evolucion_keys_nodup e)]; rfl

theorem pyGet_evolucion_tp (e : REvolucion) (d : JValue) :
    (REvolucion.toJson e).pyGet "torax_posterior" d =
      .ok ((e.torax_posterior.map JValue.jstr).getD d) := by
  rw [REvolucion.toJson, pyGet_optFields (REvolucion.fields e) _ _ (evolucion_keys_nodup e)]; rfl

theorem pyGet_evolucion_abdomen (e : REvolucion) (d : JValue) :
    (REvolucion.toJson e).pyGet "abdomen" d = .ok ((e.abdomen.map JValue.jstr).getD d) := by
  rw [REvolucion.toJson, pyGet_optFields (REvolucion.fields e) _ _ (evolucion_keys_nodup e)]; rfl

theorem pyGet_evolucion_gu (e : REvolucion) (d : JValue) :
    (REvolucion.toJson e).pyGet "genitourinario" d =
      .ok ((e.genitourinario.map JValue.jstr).getD d) := by
  rw [REvolucion.toJson, pyGet_optFields (REvolucion.fields e) _ _ (evolucion_keys_nodup e)]; rfl

theorem pyGet_evolucion_ext (e : REvolucion) (d : JValue) :
    (REvolucion.toJson e).pyGet "extremidades" d =
      .ok ((e.extremidades.map JValue.jstr).getD d) := by
  rw [REvolucion.toJson, pyGet_optFields (REvolucion.fields e) _ _ (evolucion_keys_nodup e)]; rfl

theorem pyGet_evolucion_neuro (e : REvolucion) (d : JValue) :
    (REvolucion.toJson e).pyGet "neurologico" d =
      .ok ((e.neurologico.map RNeuro.toJson).getD d) := by
  rw [REvolucion.toJson, pyGet_optFields (REvolucion.fields e) _ _ (evolucion_keys_nodup e)]; rfl

theorem pyGet_neuro_estado (n : RNeuro) (d : JValue) :
    (RNeuro.toJson n).pyGet "estado" d = .ok ((n.estado.map JValue.jstr).getD d) := by
  rw [RNeuro.toJson, pyGet_optFields (RNeuro.fields n) _ _ (neuro_keys_nodup n)]; rfl

theorem pyGet_neuro_foco (n : RNeuro) (d : JValue) :
    (RNeuro.toJson n).pyGet "foco_motor" d = .ok ((n.foco_motor.map JValue.jstr).getD d) := by
  rw [RNeuro.toJson, pyGet_optFields (RNeuro.fields n) _ _ (neuro_keys_nodup n)]; rfl

theorem pyGet_neuro_glasgow (n : RNeuro) (d : JValue) :
    (RNeuro.toJson n).pyGet "glasgow" d = .ok ((n.glasgow.map JValue.jstr).getD d) := by
  rw [RNeuro.toJson, pyGet_optFields (RNeuro.fields n) _ _ (neuro_keys_nodup n)]; rfl

/-! ## Closed forms of the rendered columns on typed reports -/

theorem dia_not_empty (w : Fin 7) : (traducir_dia (englishDayName w)).isEmpty = false := by
  fin_cases w <;> decide

theorem fmtDate_not_empty (dt : PyDateTime) : (fmtDate dt).isEmpty = false := by
  rw [Bool.eq_false_iff]
  intro h
  have h2 : fmtDate dt = "" := (String.isEmpty_iff _).mp h
  have h3 := congrArg String.length h2
  have hs : ("/" : String).length = 1 := rfl
  simp [fmtDate, String.length_append, hs] at h3

theorem fmtTime_not_empty (dt : PyDateTime) : (fmtTime dt).isEmpty = false := by
  rw [Bool.eq_false_iff]
  intro h
  have h2 : fmtTime dt = "" := (String.isEmpty_iff _).mp h
  have h3 := congrArg String.length h2
  have hs : (":" : String).length = 1 := rfl
  simp [fmtTime, String.length_append, hs] at h3

/-- A string vital line (`PA`): shown unless absent or empty. -/
def strVital (key : String) : Option String → List Run
  | some s => if s.isEmpty then [] else
      [agregar_texto_negrita (key ++ ": ") 8, agregar_texto (s ++ "\n") 8]
  | none => []

/-- An integer vital line (`FC`/`FR`/`O2`): shown unless absent or zero. -/
def intVital (key : String) : Option Int → List Run
  | some n => if n == 0 then [] else
      [agregar_texto_negrita (key ++ ": ") 8, agregar_texto (toString n ++ "\n") 8]
  | none => []

/-- Closed form of the vitals block of column 1. -/
def vitalsRunsOf : Option RSignos → List Run
  | none => []
  | some s => strVital "PA" s.PA ++ intVital "FC" s.FC ++ intVital "FR" s.FR ++ intVital "O2" s.O2

/-- Closed form of the weekday/date/time block of column 1. -/
def dateRunsOf : Option String → List Run
  | none => []
  | some s =>
      match parseIso s with
      | none => []
      | some dt =>
          [agregar_texto_negrita
             (traducir_dia (englishDayName (dayOfWeek dt.year dt.month dt.day)) ++ "\n") 8,
           agregar_texto (fmtDate dt ++ "\n") 8,
           agregar_texto (fmtTime dt ++ "\n\n") 8]

theorem pyGet_emptyObj (k : String) (d : JValue) : (JValue.jobj []).pyGet k d = .ok d := rfl

theorem truthy_null : truthy .null = false := rfl

theorem vital_PA_eval (o : Option String) :
    (if truthy ((o.map JValue.jstr).getD .null) then
       [agregar_texto_negrita "PA: " 8,
        agregar_texto (pyStr ((o.map JValue.jstr).getD .null) ++ "\n") 8]
     else []) = strVital "PA" o := by
  cases o with
  | none => rfl
  | some s => by_cases h : s.isEmpty <;> simp [truthy, pyStr, strVital, h]

theorem vital_FC_eval (o : Option Int) :
    (if truthy ((o.map JValue.jint).getD .null) then
       [agregar_texto_negrita "FC: " 8,
        agregar_texto (pyStr ((o.map JValue.jint).getD .null) ++ "\n") 8]
     else []) = intVital "FC" o := by
  cases o with
  | none => rfl
  | some n => by_cases h : n = 0 <;> simp [truthy, pyStr, intVital, h]

theorem vital_FR_eval (o : Option Int) :
    (if truthy ((o.map JValue.jint).getD .null) then
       [agregar_texto_negrita "FR: " 8,
        agregar_texto (pyStr ((o.map JValue.jint).getD .null) ++ "\n") 8]
     else []) = intVital "FR" o := by
  cases o with
  | none => rfl
  | some n => by_cases h : n = 0 <;> simp [truthy, pyStr, intVital, h]

theorem vital_O2_eval (o : Option Int) :
    (if truthy ((o.map JValue.jint).getD .null) then
       [agregar_texto_negrita "O2: " 8,
        agregar_texto (pyStr ((o.map JValue.jint).getD .null) ++ "\n") 8]
     else []) = intVital "O2" o := by
  cases o with
  | none => rfl
  | some n => by_cases h : n = 0 <;> simp [truthy, pyStr, intVital, h]

theorem isEmpty_empty_str : ("" : String).isEmpty = true := rfl

theorem parseIso_empty : parseIso "" = none := rfl

theorem col1Runs_eval (r : RReport) :
    col1Runs (RReport.toJson r) =
      .ok (dateRunsOf r.fecha_hora ++ vitalsRunsOf r.signos_vitales) := by
  cases hf : r.fecha_hora with
  | none =>
      cases hs : r.signos_vitales with
      | none =>
          simp [col1Runs, pyGet_report_fecha, pyGet_report_signos, hf, hs, parseIso_empty,
                isEmpty_empty_str, dateRunsOf, vitalsRunsOf, pyGet_emptyObj, truthy_null]
      | some sv =>
          simp [col1Runs, pyGet_report_fecha, pyGet_report_signos, hf, hs, parseIso_empty,
                isEmpty_empty_str, dateRunsOf, vitalsRunsOf, pyGet_signos_PA, pyGet_signos_FC,
                pyGet_signos_FR, pyGet_signos_O2, vital_PA_eval, vital_FC_eval,
                vital_FR_eval, vital_O2_eval]
  | some s =>
      cases hp : parseIso s with
      | none =>
          cases hs : r.signos_vitales with
          | none =>
              simp [col1Runs, pyGet_report_fecha, pyGet_report_signos, hf, hs, hp,
                    isEmpty_empty_str, dateRunsOf, vitalsRunsOf, pyGet_emptyObj, truthy_null]
          | some sv =>
              simp [col1Runs, pyGet_report_fecha, pyGet_report_signos, hf, hs, hp,
                    isEmpty_empty_str, dateRunsOf, vitalsRunsOf, pyGet_signos_PA, pyGet_signos_FC,
                    pyGet_signos_FR, pyGet_signos_O2, vital_PA_eval, vital_FC_eval,
                    vital_FR_eval, vital_O2_eval]
      | some dt =>
          cases hs : r.signos_vitales with
          | none =>
              simp [col1Runs, pyGet_report_fecha, pyGet_report_signos, hf, hs, hp,
                    dia_not_empty, fmtDate_not_empty, fmtTime_not_empty,
                    dateRunsOf, vitalsRunsOf, pyGet_emptyObj, truthy_null]
          | some sv =>
              simp [col1Runs, pyGet_report_fecha, pyGet_report_signos, hf, hs, hp,
                    dia_not_empty, fmtDate_not_empty, fmtTime_not_empty,
                    dateRunsOf, vitalsRunsOf, pyGet_signos_PA, pyGet_signos_FC,
                    pyGet_signos_FR, pyGet_signos_O2, vital_PA_eval, vital_FC_eval,
                    vital_FR_eval, vital_O2_eval]

/-- Closed form of the description block of column 2. -/
def descBlockOf : Option String → List Run
  | some s => if s.isEmpty then [] else [agregar_texto (s ++ "\n\n") 8]
  | none => []

/-- Closed form of the diagnosis block: bold label, one uppercased bullet
line per diagnosis, trailing blank line. -/
def diagBlockOf : Option (List String) → List Run
  | some l =>
      if l.isEmpty then [] else
        agregar_texto_negrita "DIAGNÓSTICOS:\n" 8 ::
        (l.map (fun d => agregar_texto ("• " ++ pyUpperStr d ++ "\n") 8) ++
         [agregar_texto "\n" 8])
  | none => []

/-- Closed form of the general-state block. -/
def sBlockOf : Option String → List Run
  | some s => if s.isEmpty then [] else
      [agregar_texto_negrita "S: " 8, agregar_texto (s ++ "\n\n") 8]
  | none => []

/-- Closed form of one regional-exam line. -/
def regLineOf (label : String) : Option String → List Run
  | some s => if s.isEmpty then [] else
      [agregar_texto_negrita (label ++ ": ") 8, agregar_texto (s ++ "\n") 8]
  | none => []

/-- Closed form of the six regional-exam lines, in the fixed label order. -/
def regBlockOf : Option REvolucion → List Run
  | none => []
  | some e =>
      regLineOf "Cuello" e.cuello ++ regLineOf "Tórax anterior" e.torax_anterior ++
      regLineOf "Tórax posterior" e.torax_posterior ++ regLineOf "Abdomen" e.abdomen ++
      regLineOf "Genitourinario" e.genitourinario ++ regLineOf "Extremidades" e.extremidades

/-- Closed form of the general physical exam block. -/
def efgBlockOf : Option String → List Run
  | some s => if s.isEmpty then [] else
      [agregar_texto_negrita "\nEFG: " 8, agregar_texto (s ++ "\n") 8]
  | none => []

/-- The members of the `ENB` line that are present and non-empty, in the
fixed order state, focal deficit, `Glasgow <score>`. -/
def enbMembers (n : RNeuro) : List String :=
  (match n.estado with | some s => if s.isEmpty then [] else [s] | none => []) ++
  (match n.foco_motor with | some s => if s.isEmpty then [] else [s] | none => []) ++
  (match n.glasgow with | some s => if s.isEmpty then [] else ["Glasgow " ++ s] | none => [])

/-- Closed form of the `ENB` line: the comma-join of the present members,
the whole line omitted when there are none. -/
def enbBlockOf : Option RNeuro → List Run
  | none => []
  | some n =>
      if (enbMembers n).isEmpty then [] else
        [agregar_texto_negrita "\nENB: " 8,
         agregar_texto (String.intercalate ", " (enbMembers n) ++ "\n") 8]

/-- Closed form of the laboratory block. -/
def bhBlockOf : Option String → List Run
  | some s => if s.isEmpty then [] else
      [agregar_texto_negrita "\nBH: " 8, agregar_texto (s ++ "\n") 8]
  | none => []

/-- Closed form of the imaging block. -/
def rdBlockOf : Option String → List Run
  | some s => if s.isEmpty then [] else
      [agregar_texto_negrita "\nRD: " 8, agregar_texto (s ++ "\n") 8]
  | none => []

theorem descPart_eval (o : Option String) :
    descPart ((o.map JValue.jstr).getD (.jstr "")) = .ok (descBlockOf o) := by
  cases o with
  | none => rfl
  | some s => by_cases h : s.isEmpty <;> simp [descPart, descBlockOf, truthy, pyAddStr, h]

theorem diagLines_eval (l : List String) :
    diagLines (l.map JValue.jstr) =
      .ok (l.map (fun d => agregar_texto ("• " ++ pyUpperStr d ++ "\n") 8)) := by
  induction l with
  | nil => rfl
  | cons d tl ih => simp [diagLines, pyUpper, ih]

theorem diagPart_eval (o : Option (List String)) :
    diagPart ((o.map (fun l => JValue.jlist (l.map JValue.jstr))).getD (.jlist [])) =
      .ok (diagBlockOf o) := by
  cases o with
  | none => rfl
  | some l =>
      by_cases h : l = []
      · subst h; rfl
      · simp [diagPart, diagBlockOf, truthy, h, pyIter, diagLines_eval]

theorem sPartRuns_eval (o : Option String) :
    sPartRuns ((o.map JValue.jstr).getD .null) = sBlockOf o := by
  cases o with
  | none => rfl
  | some s => by_cases h : s.isEmpty <;> simp [sPartRuns, sBlockOf, truthy, pyStr, h]

theorem efgPartRuns_eval (o : Option String) :
    efgPartRuns ((o.map JValue.jstr).getD .null) = efgBlockOf o := by
  cases o with
  | none => rfl
  | some s => by_cases h : s.isEmpty <;> simp [efgPartRuns, efgBlockOf, truthy, pyStr, h]

theorem bhPartRuns_eval (o : Option String) :
    bhPartRuns ((o.map JValue.jstr).getD (.jstr "")) = bhBlockOf o := by
  cases o with
  | none => rfl
  | some s => by_cases h : s.isEmpty <;> simp [bhPartRuns, bhBlockOf, truthy, pyStr, h]

theorem rdPartRuns_eval (o : Option String) :
    rdPartRuns ((o.map JValue.jstr).getD (.jstr "")) = rdBlockOf o := by
  cases o with
  | none => rfl
  | some s => by_cases h : s.isEmpty <;> simp [rdPartRuns, rdBlockOf, truthy, pyStr, h]

theorem regFieldRuns_empty (k l : String) :
    regFieldRuns (.jobj []) k l = .ok [] := rfl

theorem regFieldRuns_cuello (e : REvolucion) :
    regFieldRuns (REvolucion.toJson e) "cuello" "Cuello" =
      .ok (regLineOf "Cuello" e.cuello) := by
  unfold regFieldRuns
  rw [pyGet_evolucion_cuello, ok_bind]
  cases h : e.cuello with
  | none => rfl
  | some s => by_cases hs : s.isEmpty <;> simp [truthy, pyStr, regLineOf, hs]

theorem regFieldRuns_ta (e : REvolucion) :
    regFieldRuns (REvolucion.toJson e) "torax_anterior" "Tórax anterior" =
      .ok (regLineOf "Tórax anterior" e.torax_anterior) := by
  unfold regFieldRuns
  rw [pyGet_evolucion_ta, ok_bind]
  cases h : e.torax_anterior with
  | none => rfl
  | some s => by_cases hs : s.isEmpty <;> simp [truthy, pyStr, regLineOf, hs]

theorem regFieldRuns_tp (e : REvolucion) :
    regFieldRuns (REvolucion.toJson e) "torax_posterior" "Tórax posterior" =
      .ok (regLineOf "Tórax posterior" e.torax_posterior) := by
  unfold regFieldRuns
  rw [pyGet_evolucion_tp, ok_bind]
  cases h : e.torax_posterior with
  | none => rfl
  | some s => by_cases hs : s.isEmpty <;> simp [truthy, pyStr, regLineOf, hs]

theorem regFieldRuns_abdomen (e : REvolucion) :
    regFieldRuns (REvolucion.toJson e) "abdomen" "Abdomen" =
      .ok (regLineOf "Abdomen" e.abdomen) := by
  unfold regFieldRuns
  rw [pyGet_evolucion_abdomen, ok_bind]
  cases h : e.abdomen with
  | none => rfl
  | some s => by_cases hs : s.isEmpty <;> simp [truthy, pyStr, regLineOf, hs]

theorem regFieldRuns_gu (e : REvolucion) :
    regFieldRuns (REvolucion.toJson e) "genitourinario" "Genitourinario" =
      .ok (regLineOf "Genitourinario" e.genitourinario) := by
  unfold regFieldRuns
  rw [pyGet_evolucion_gu, ok_bind]
  cases h : e.genitourinario with
  | none => rfl
  | some s => by_cases hs : s.isEmpty <;> simp [truthy, pyStr, regLineOf, hs]

theorem regFieldRuns_ext (e : REvolucion) :
    regFieldRuns (REvolucion.toJson e) "extremidades" "Extremidades" =
      .ok (regLineOf "Extremidades" e.extremidades) := by
  unfold regFieldRuns
  rw [pyGet_evolucion_ext, ok_bind]
  cases h : e.extremidades with
  | none => rfl
  | some s => by_cases hs : s.isEmpty <;> simp [truthy, pyStr, regLineOf, hs]

theorem enbPart_eval (o : Option RNeuro) :
    enbPart ((o.map RNeuro.toJson).getD (.jobj [])) = .ok (enbBlockOf o) := by
  cases o with
  | none => rfl
  | some n =>
      obtain ⟨eo, go, fo⟩ := n
      cases eo <;> cases go <;> cases fo <;>
        simp [enbPart, enbBlockOf, enbMembers, RNeuro.toJson, RNeuro.fields, optFields,
              truthy, pyFields, JValue.pyGet, List.lookup, pyJoin, pyStrList, pyStr] <;>
        split_ifs <;>
        simp_all [pyJoin, pyStrList, pyStr]

theorem descPart_eval2 (o : Option String) :
    descPart (JValue.jstr (o.getD "")) = .ok (descBlockOf o) := by
  have h := descPart_eval o
  cases o <;> simpa using h

theorem bhPartRuns_eval2 (o : Option String) :
    bhPartRuns (JValue.jstr (o.getD "")) = bhBlockOf o := by
  have h := bhPartRuns_eval o
  cases o <;> simpa using h

theorem rdPartRuns_eval2 (o : Option String) :
    rdPartRuns (JValue.jstr (o.getD "")) = rdBlockOf o := by
  have h := rdPartRuns_eval o
  cases o <;> simpa using h

theorem enbPart_emptyObj : enbPart (JValue.jobj []) = .ok (enbBlockOf none) := rfl

theorem sPartRuns_null : sPartRuns JValue.null = sBlockOf none := rfl

theorem efgPartRuns_null : efgPartRuns JValue.null = efgBlockOf none := rfl

/-- Closed form of column 2: the eight blocks in their fixed order. -/
def col2closed (r : RReport) : List Run :=
  descBlockOf r.descripcion_paciente ++ diagBlockOf r.diagnosticos ++
  sBlockOf (r.evolucion.bind REvolucion.estado_general) ++
  regBlockOf r.evolucion ++
  efgBlockOf (r.evolucion.bind REvolucion.EFG) ++
  enbBlockOf (r.evolucion.bind REvolucion.neurologico) ++
  bhBlockOf r.BH ++ rdBlockOf r.RD

theorem col2Runs_eval (r : RReport) :
    col2Runs (RReport.toJson r) = .ok (col2closed r) := by
  cases he : r.evolucion with
  | none =>
      simp [col2Runs, col2closed, pyGet_report_descripcion, pyGet_report_diagnosticos,
            pyGet_report_evolucion, pyGet_report_BH, pyGet_report_RD, he,
            pyGet_emptyObj, regFieldRuns_empty, descPart_eval, descPart_eval2,
            diagPart_eval, sPartRuns_eval, efgPartRuns_eval, bhPartRuns_eval,
            bhPartRuns_eval2, rdPartRuns_eval, rdPartRuns_eval2, enbPart_eval,
            enbPart_emptyObj, sPartRuns_null, efgPartRuns_null, regBlockOf]
  | some ev =>
      simp [col2Runs, col2closed, pyGet_report_descripcion, pyGet_report_diagnosticos,
            pyGet_report_evolucion, pyGet_report_BH, pyGet_report_RD, he,
            pyGet_evolucion_eg, pyGet_evolucion_EFG, pyGet_evolucion_neuro,
            regFieldRuns_cuello, regFieldRuns_ta, regFieldRuns_tp, regFieldRuns_abdomen,
            regFieldRuns_gu, regFieldRuns_ext, descPart_eval, descPart_eval2,
            diagPart_eval, sPartRuns_eval, efgPartRuns_eval, bhPartRuns_eval,
            bhPartRuns_eval2, rdPartRuns_eval, rdPartRuns_eval2, enbPart_eval,
            enbPart_emptyObj, regBlockOf]

/-- Closed form of the numbered order lines. -/
def ordenLinesOf : Nat → List String → List Run
  | _, [] => []
  | i, o :: rest =>
      agregar_texto (toString (i + 1) ++ ". " ++ o ++ "\n") 8 :: ordenLinesOf (i + 1) rest

theorem ordenLines_eval (l : List String) (i : Nat) :
    ordenLines i (l.map JValue.jstr) = ordenLinesOf i l := by
  induction l generalizing i with
  | nil => rfl
  | cons o rest ih => simp [ordenLines, ordenLinesOf, pyStr, ih]

/-- Closed form of one fluid-balance line: absent for a missing or zero field. -/
def intLine (k : String) : Option Int → List Run
  | some n => if n == 0 then [] else [agregar_texto (k ++ ": " ++ toString n ++ "\n") 8]
  | none => []

/-- Closed form of the intake lines, in the fixed `VO`,`VP`,`AM`,`OTROS`,`TOTAL` order. -/
def intakeLines (i : RIngresos) : List Run :=
  intLine "VO" i.VO ++ intLine "VP" i.VP ++ intLine "AM" i.AM ++
  intLine "OTROS" i.OTROS ++ intLine "TOTAL" i.TOTAL

/-- Closed form of the output lines, in the fixed `D`,`C`,`PI`,`OTROS`,`TOTAL` order. -/
def egresoLines (e : REgresos) : List Run :=
  intLine "D" e.D ++ intLine "C" e.C ++ intLine "PI" e.PI ++
  intLine "OTROS" e.OTROS ++ intLine "TOTAL" e.TOTAL

def intNonzero : Option Int → Bool
  | some n => n != 0
  | none => false

/-- Some intake sub-field is present and non-zero. -/
def ingAny (i : RIngresos) : Bool :=
  intNonzero i.VO || intNonzero i.VP || intNonzero i.AM ||
  intNonzero i.OTROS || intNonzero i.TOTAL

/-- Some output sub-field is present and non-zero. -/
def egAny (e : REgresos) : Bool :=
  intNonzero e.D || intNonzero e.C || intNonzero e.PI ||
  intNonzero e.OTROS || intNonzero e.TOTAL

theorem nonzeroLines_ingresos (i : RIngresos) :
    nonzeroLines (optFields (RIngresos.fields i)) = intakeLines i := by
  obtain ⟨a, b, c, d, e⟩ := i
  cases a <;> cases b <;> cases c <;> cases d <;> cases e <;>
    simp [nonzeroLines, intakeLines, intLine, RIngresos.fields, optFields, truthy, pyStr,
          ite_not]

theorem nonzeroLines_egresos (e : REgresos) :
    nonzeroLines (optFields (REgresos.fields e)) = egresoLines e := by
  obtain ⟨a, b, c, d, f⟩ := e
  cases a <;> cases b <;> cases c <;> cases d <;> cases f <;>
    simp [nonzeroLines, egresoLines, intLine, REgresos.fields, optFields, truthy, pyStr,
          ite_not]

theorem anyTruthy_ingresos (i : RIngresos) :
    ((optFields (RIngresos.fields i)).map Prod.snd).any truthy = ingAny i := by
  obtain ⟨a, b, c, d, e⟩ := i
  cases a <;> cases b <;> cases c <;> cases d <;> cases e <;>
    simp [RIngresos.fields, optFields, truthy, ingAny, intNonzero, Bool.or_assoc]

theorem anyTruthy_egresos (e : REgresos) :
    ((optFields (REgresos.fields e)).map Prod.snd).any truthy = egAny e := by
  obtain ⟨a, b, c, d, f⟩ := e
  cases a <;> cases b <;> cases c <;> cases d <;> cases f <;>
    simp [REgresos.fields, optFields, truthy, egAny, intNonzero, Bool.or_assoc]

/-- The JSON field list backing an optional intake record. -/
def ingFieldsOf : Option RIngresos → List (String × JValue)
  | none => []
  | some i => optFields (RIngresos.fields i)

/-- The JSON field list backing an optional output record. -/
def egFieldsOf : Option REgresos → List (String × JValue)
  | none => []
  | some e => optFields (REgresos.fields e)

/-- Closed form of column 3. -/
def col3closed (r : RReport) : List Run :=
  ordenLinesOf 0 (r.ordenes_medicas.getD []) ++
  fluidRuns (ingFieldsOf r.ingresos) (egFieldsOf r.egresos)

theorem col3Runs_eval (r : RReport) :
    col3Runs (RReport.toJson r) = .ok (col3closed r) := by
  cases ho : r.ordenes_medicas <;> cases hi : r.ingresos <;> cases hg : r.egresos <;>
    simp [col3Runs, col3closed, pyGet_report_ordenes, pyGet_report_ingresos,
          pyGet_report_egresos, ho, hi, hg, pyIter, pyFields, ordenLines_eval,
          ingFieldsOf, egFieldsOf, RIngresos.toJson, REgresos.toJson, ordenLines,
          ordenLinesOf]

theorem pyStr_intOpt (o : Option Int) :
    pyStr ((o.map JValue.jint).getD (.jstr "")) =
      (match o with | some n => toString n | none => "") := by
  cases o <;> rfl

theorem pyRunText_str (s : String) : pyRunText (.jstr s) = .ok s := rfl

/-- Closed form of the patient data row. -/
def datosOf : Option RPaciente → List String
  | none => ["", "", "", "", ""]
  | some p =>
      [p.apellido_paterno.getD "", p.apellido_materno.getD "", p.nombres.getD "",
       (match p.n_historia with | some n => toString n | none => ""),
       (match p.n_cama with | some n => toString n | none => "")]

theorem datos_paciente_eval (r : RReport) :
    datos_paciente (RReport.toJson r) = .ok (datosOf r.paciente) := by
  cases hp : r.paciente with
  | none =>
      simp [datos_paciente, pyGet_report_paciente, hp, pyGet_emptyObj, datosOf,
            pyRunText, pyStr]
  | some p =>
      simp [datos_paciente, pyGet_report_paciente, hp, pyGet_paciente_ap,
            pyGet_paciente_am, pyGet_paciente_nombres, pyGet_paciente_nh,
            pyGet_paciente_nc, datosOf, pyRunText_str, pyStr_intOpt]

/-- Closed form of the whole rendered document. -/
def docOf (r : RReport) : List Block :=
  [Block.table 5 [encabezado_paciente.map (fun t => [agregar_texto_negrita t 9]),
                  (datosOf r.paciente).map (fun d => [agregar_texto d 9])],
   Block.para [],
   Block.table 3 [encabezados.map (fun t => [agregar_texto_negrita t 9]),
                  [dateRunsOf r.fecha_hora ++ vitalsRunsOf r.signos_vitales,
                   col2closed r, col3closed r]]]

/-- The renderer succeeds on every typed report and produces `docOf`. -/
theorem generar_eval (r : RReport) :
    generar_docx_desde_json (RReport.toJson r) = .ok (docOf r) := by
  simp [generar_docx_desde_json, datos_paciente_eval, col1Runs_eval, col2Runs_eval,
        col3Runs_eval, docOf]

/-! ## The endpoint `procesar_informe` (lines 322-391)

The external collaborators (werkzeug's `secure_filename`, whisper,
Gemini, `json.loads`) are oracles supplied as parameters; the endpoint is
a function of the request and these oracles, returning the HTTP response
together with the trace of its file-system side effects. -/

structure Request where
  has_audio : Bool
  tipo_informe_field : Option String
  audio_filename : String

structure Collab where
  secure_name : String → String
  transcribe : String → Except String String
  llm : String → String → Except String String
  jsonParse : String → Except String JValue

inductive Effect where
  | saveUpload : String → Effect
  | transcribeCall : String → Effect
  | removeFile : String → Effect
  | llmCall : Effect
  | renderSave : String → Effect
  | readBack : String → Effect
deriving Repr, DecidableEq

inductive Response where
  | ok : JValue → List Block → Response
  | clientError : String → Response
  | serverError : String → Response

def UPLOAD_FOLDER : String := "uploads"

def pyErrMsg : PyError → String
  | .attributeError m => "AttributeError: " ++ m
  | .typeError m => "TypeError: " ++ m

/-- The endpoint: validates inputs, saves and transcribes the upload
(removing it only on transcription success), calls the structuring
service, JSON-parses its text, renders the document to the fixed path
`informe.docx`, reads it back, and never removes it.  Any exception
from the Gemini/parse/render region is caught and surfaced as the
"Error al generar respuesta con Gemini" server error (lines 390-391). -/
def procesar_informe (c : Collab) (req : Request) : Response × List Effect :=
  if !req.has_audio || req.tipo_informe_field.isNone then
    (.clientError "Faltan datos: audio o tipo_informe", [])
  else
    let tipo_informe := req.tipo_informe_field.getD ""
    match TipoInforme.ofString tipo_informe with
    | none => (.clientError ("Tipo de informe inválido: " ++ tipo_informe), [])
    | some tipo_enum =>
      let filepath := UPLOAD_FOLDER ++ "/" ++ c.secure_name req.audio_filename
      let ef0 : List Effect := [.saveUpload filepath, .transcribeCall filepath]
      match c.transcribe filepath with
      | .error e => (.serverError ("Error al transcribir audio: " ++ e), ef0)
      | .ok texto_crudo =>
        let ef1 := ef0 ++ [.removeFile filepath]
        match c.llm tipo_enum.value texto_crudo with
        | .error e =>
            (.serverError ("Error al generar respuesta con Gemini: " ++ e), ef1 ++ [.llmCall])
        | .ok response_text =>
          let ef2 := ef1 ++ [.llmCall]
          match c.jsonParse response_text with
          | .error e => (.serverError ("Error al generar respuesta con Gemini: " ++ e), ef2)
          | .ok data_json =>
            let file_path := "informe.docx"
            match generar_docx_desde_json data_json with
            | .error e =>
                (.serverError ("Error al generar respuesta con Gemini: " ++ pyErrMsg e), ef2)
            | .ok doc =>
                (.ok data_json doc, ef2 ++ [.renderSave file_path, .readBack file_path])

/-! ## The schema validator

`InformeGeriatrico` (lines 78-90) is a Pydantic model; Pydantic derives
from it a validation operation over arbitrary JSON payloads.  We model
that operation: every declared field is required (except `EFR`, declared
with default `""`), strings must be strings, integers integers, lists
lists of strings, and the report-type tag must belong to the closed
enumeration. -/

structure SchemaViolation where
  path : String
  msg : String
deriving Repr, DecidableEq

def vrequire (obj : List (String × JValue)) (k : String) : Except SchemaViolation JValue :=
  match obj.lookup k with
  | some v => .ok v
  | none => .error ⟨k, "missing required field"⟩

def asStr (k : String) : JValue → Except SchemaViolation String
  | .jstr s => .ok s
  | _ => .error ⟨k, "expected string"⟩

def asInt (k : String) : JValue → Except SchemaViolation Int
  | .jint n => .ok n
  | _ => .error ⟨k, "expected integer"⟩

def asObj (k : String) : JValue → Except SchemaViolation (List (String × JValue))
  | .jobj fs => .ok fs
  | _ => .error ⟨k, "expected object"⟩

def asStrList (k : String) : JValue → Except SchemaViolation (List String)
  | .jlist xs => xs.foldr (fun x acc => do
      let tl ← acc
      match x with
      | .jstr s => .ok (s :: tl)
      | _ => .error ⟨k, "expected list of strings"⟩) (.ok [])
  | _ => .error ⟨k, "expected list"⟩

def reqStr (obj : List (String × JValue)) (k : String) : Except SchemaViolation String := do
  asStr k (← vrequire obj k)

def reqInt (obj : List (String × JValue)) (k : String) : Except SchemaViolation Int := do
  asInt k (← vrequire obj k)

def validPaciente (v : JValue) : Except SchemaViolation RPaciente := do
  let o ← asObj "paciente" v
  let ap ← reqStr o "apellido_paterno"
  let am ← reqStr o "apellido_materno"
  let nom ← reqStr o "nombres"
  let edad ← reqInt o "edad"
  let sexo ← reqStr o "sexo"
  let nc ← reqInt o "n_cama"
  let nh ← reqInt o "n_historia"
  .ok ⟨some ap, some am, some nom, some edad, some sexo, some nc, some nh⟩

def validSignos (v : JValue) : Except SchemaViolation RSignos := do
  let o ← asObj "signos_vitales" v
  let pa ← reqStr o "PA"
  let fc ← reqInt o "FC"
  let fr ← reqInt o "FR"
  let o2 ← reqInt o "O2"
  .ok ⟨some pa, some fc, some fr, some o2⟩

def validNeuro (v : JValue) : Except SchemaViolation RNeuro := do
  let o ← asObj "neurologico" v
  let es ← reqStr o "estado"
  let gl ← reqStr o "glasgow"
  let fm ← reqStr o "foco_motor"
  .ok ⟨some es, some gl, some fm⟩

def validEvolucion (v : JValue) : Except SchemaViolation REvolucion := do
  let o ← asObj "evolucion" v
  let eg ← reqStr o "estado_general"
  let efg ← reqStr o "EFG"
  let efr ← (match o.lookup "EFR" with
    | some w => asStr "EFR" w
    | none => .ok "")
  let cu ← reqStr o "cuello"
  let ta ← reqStr o "torax_anterior"
  let tp ← reqStr o "torax_posterior"
  let ab ← reqStr o "abdomen"
  let gu ← reqStr o "genitourinario"
  let ex ← reqStr o "extremidades"
  let ne ← validNeuro (← vrequire o "neurologico")
  .ok ⟨some eg, some efg, some efr, some cu, some ta, some tp, some ab, some gu,
       some ex, some ne⟩

def validIngresos (v : JValue) : Except SchemaViolation RIngresos := do
  let o ← asObj "ingresos" v
  let vo ← reqInt o "VO"
  let vp ← reqInt o "VP"
  let am ← reqInt o "AM"
  let ot ← reqInt o "OTROS"
  let tot ← reqInt o "TOTAL"
  .ok ⟨some vo, some vp, some am, some ot, some tot⟩

def validEgresos (v : JValue) : Except SchemaViolation REgresos := do
  let o ← asObj "egresos" v
  let d ← reqInt o "D"
  let cc ← reqInt o "C"
  let pi2 ← reqInt o "PI"
  let ot ← reqInt o "OTROS"
  let tot ← reqInt o "TOTAL"
  .ok ⟨some d, some cc, some pi2, some ot, some tot⟩

/-- The validation/parsing operation the Pydantic schema induces: either a
fully-typed report or a `SchemaViolation` naming the offending field. -/
def InformeGeriatrico.validate (v : JValue) : Except SchemaViolation RReport := do
  let o ← asObj "informe" v
  let tagv ← vrequire o "tipo_informe"
  let tag ← asStr "tipo_informe" tagv
  let tipo ← (match TipoInforme.ofString tag with
    | some t => .ok t
    | none => .error ⟨"tipo_informe", "invalid enum value"⟩)
  let pac ← validPaciente (← vrequire o "paciente")
  let fh ← reqStr o "fecha_hora"
  let sv ← validSignos (← vrequire o "signos_vitales")
  let dg ← asStrList "diagnosticos" (← vrequire o "diagnosticos")
  let ev ← validEvolucion (← vrequire o "evolucion")
  let ing ← validIngresos (← vrequire o "ingresos")
  let eg ← validEgresos (← vrequire o "egresos")
  let om ← asStrList "ordenes_medicas" (← vrequire o "ordenes_medicas")
  let bh ← reqStr o "BH"
  let rd ← reqStr o "RD"
  let dp ← reqStr o "descripcion_paciente"
  .ok ⟨some tipo, some pac, some fh, some sv, some dg, some ev, some ing, some eg,
       some om, some bh, some rd, some dp⟩

/-! ## Claim theorems -/

theorem datosOf_length (o : Option RPaciente) : (datosOf o).length = 5 := by
  cases o <;> rfl

/-- C1: for every report in which any subset of the (render-)optional
fields is missing or empty, the renderer completes without error; the
claim's failure half is corrected — when the root report object is absent
(or a structural field has the wrong shape) the code raises a plain
`AttributeError` carrying no field path, not a `RenderError` identifying
the missing required path. -/
theorem C1_theorem (r : RReport) :
    (∃ doc, generar_docx_desde_json (RReport.toJson r) = .ok doc) ∧
    generar_docx_desde_json JValue.null = .error (.attributeError "get") :=
  ⟨⟨docOf r, generar_eval r⟩, rfl⟩

/-- C1 counterexample: the missing root object and a malformed `paciente`
field — two different missing/invalid required paths — raise the very
same `AttributeError("get")`; no error identifying the missing required
path (no `RenderError`) exists in the code. -/
theorem C1_counterexample :
    generar_docx_desde_json JValue.null = .error (.attributeError "get") ∧
    generar_docx_desde_json (.jobj [("paciente", .jint 0)]) =
      .error (.attributeError "get") :=
  ⟨rfl, rfl⟩

/-- C3: for every typed report the rendered document is exactly a
5-column patient table (one header row, one 5-cell data row), one spacer
paragraph, and a 3-column clinical table (one header row, one 3-cell data
row): exactly 2 tables and exactly 1 paragraph between them. -/
theorem C3_theorem (r : RReport) :
    ∃ doc, generar_docx_desde_json (RReport.toJson r) = .ok doc ∧
      (doc.filter Block.isTable).length = 2 ∧
      (doc.filter Block.isPara).length = 1 ∧
      ∃ drow c1 c2 c3,
        doc = [Block.table 5 [encabezado_paciente.map (fun t => [agregar_texto_negrita t 9]),
                              drow],
               Block.para [],
               Block.table 3 [encabezados.map (fun t => [agregar_texto_negrita t 9]),
                              [c1, c2, c3]]] ∧
        drow.length = 5 ∧
        (encabezado_paciente.map (fun t => [agregar_texto_negrita t 9])).length = 5 ∧
        (encabezados.map (fun t => [agregar_texto_negrita t 9])).length = 3 := by
  refine ⟨docOf r, generar_eval r, ?_, ?_,
          (datosOf r.paciente).map (fun d => [agregar_texto d 9]),
          dateRunsOf r.fecha_hora ++ vitalsRunsOf r.signos_vitales,
          col2closed r, col3closed r, rfl, ?_, rfl, rfl⟩
  · simp [docOf, Block.isTable]
  · simp [docOf, Block.isPara]
  · simp [datosOf_length]

/-- C5: whenever the timestamp does not parse as an ISO-8601 datetime,
column 1 consists of the vitals lines only — the weekday, date and time
lines are entirely absent — and the renderer still succeeds. -/
theorem C5_theorem (r : RReport) (h : parseIso (r.fecha_hora.getD "") = none) :
    col1Runs (RReport.toJson r) = .ok (vitalsRunsOf r.signos_vitales) ∧
    ∃ doc, generar_docx_desde_json (RReport.toJson r) = .ok doc := by
  have hdate : dateRunsOf r.fecha_hora = [] := by
    cases hf : r.fecha_hora with
    | none => rfl
    | some s =>
        rw [hf] at h
        simp only [Option.getD_some] at h
        simp [dateRunsOf, h]
  refine ⟨?_, ⟨docOf r, generar_eval r⟩⟩
  rw [col1Runs_eval, hdate]
  simp

def c5report : RReport :=
  { fecha_hora := some "ayer por la tarde",
    signos_vitales := some { PA := some "120/80" } }

theorem C5_witness :
    parseIso (c5report.fecha_hora.getD "") = none ∧
    (col1Runs (RReport.toJson c5report) = .ok (vitalsRunsOf c5report.signos_vitales) ∧
     ∃ doc, generar_docx_desde_json (RReport.toJson c5report) = .ok doc) :=
  ⟨rfl, C5_theorem c5report rfl⟩

def c7report : RReport :=
  { tipo_informe := some .EVOLUCION_GERIATRICA,
    fecha_hora := some "2024-03-11T14:30:00",
    signos_vitales := some { PA := some "120/80", FC := some 80, FR := some 18, O2 := some 98 },
    diagnosticos := some ["neumonia"] }

/-- C7: on the concrete example (fecha 2024-03-11T14:30:00, vitals
PA=120/80, FC=80, FR=18, O2=98, diagnosis "neumonia"), column 1 is the
weekday line "Lunes", date "11/03/24", time "14:30", then the four vitals
in PA/FC/FR/O2 order, and column 2 contains the line "• NEUMONIA". -/
theorem C7_theorem :
    col1Runs (RReport.toJson c7report) =
      .ok [agregar_texto_negrita "Lunes\n" 8, agregar_texto "11/03/24\n" 8,
           agregar_texto "14:30\n\n" 8,
           agregar_texto_negrita "PA: " 8, agregar_texto "120/80\n" 8,
           agregar_texto_negrita "FC: " 8, agregar_texto "80\n" 8,
           agregar_texto_negrita "FR: " 8, agregar_texto "18\n" 8,
           agregar_texto_negrita "O2: " 8, agregar_texto "98\n" 8] ∧
    ∃ rs, col2Runs (RReport.toJson c7report) = .ok rs ∧
      agregar_texto "• NEUMONIA\n" 8 ∈ rs := by
  constructor
  · rfl
  · exact ⟨[agregar_texto_negrita "DIAGNÓSTICOS:\n" 8, agregar_texto "• NEUMONIA\n" 8,
            agregar_texto "\n" 8], rfl, by decide⟩

/-- C10: a vital present with value `0` (or, for `PA`, the empty string)
is rendered exactly as if the key were absent: the vitals are filtered by
truthiness of the value, not by key presence. -/
theorem C10_theorem (r : RReport) (s : RSignos) :
    col1Runs (RReport.toJson { r with signos_vitales := some { s with PA := some "" } }) =
      col1Runs (RReport.toJson { r with signos_vitales := some { s with PA := none } }) ∧
    col1Runs (RReport.toJson { r with signos_vitales := some { s with FC := some 0 } }) =
      col1Runs (RReport.toJson { r with signos_vitales := some { s with FC := none } }) ∧
    col1Runs (RReport.toJson { r with signos_vitales := some { s with FR := some 0 } }) =
      col1Runs (RReport.toJson { r with signos_vitales := some { s with FR := none } }) ∧
    col1Runs (RReport.toJson { r with signos_vitales := some { s with O2 := some 0 } }) =
      col1Runs (RReport.toJson { r with signos_vitales := some { s with O2 := none } }) ∧
    strVital "PA" (some "") = [] ∧ intVital "FC" (some 0) = [] ∧
    intVital "FR" (some 0) = [] ∧ intVital "O2" (some 0) = [] := by
  refine ⟨?_, ?_, ?_, ?_, rfl, rfl, rfl, rfl⟩ <;>
    (rw [col1Runs_eval, col1Runs_eval];
     simp [vitalsRunsOf, strVital, intVital, isEmpty_empty_str])

/-- C6: column 2 emits its blocks in the fixed order (description;
diagnoses; "S: "; regional labels; "EFG: "; "ENB: "; "BH: "; "RD: "),
each block empty when its input is missing or empty; the ENB line is the
comma-separated join of exactly the present members (state, focal
deficit, `Glasgow <score>`), and is omitted when none is present. -/
theorem C6_theorem (r : RReport) :
    col2Runs (RReport.toJson r) =
      .ok (descBlockOf r.descripcion_paciente ++ diagBlockOf r.diagnosticos ++
           sBlockOf (r.evolucion.bind REvolucion.estado_general) ++
           regBlockOf r.evolucion ++
           efgBlockOf (r.evolucion.bind REvolucion.EFG) ++
           enbBlockOf (r.evolucion.bind REvolucion.neurologico) ++
           bhBlockOf r.BH ++ rdBlockOf r.RD) ∧
    (∀ n : RNeuro, enbBlockOf (some n) =
       (if (enbMembers n).isEmpty then [] else
         [agregar_texto_negrita "\nENB: " 8,
          agregar_texto (String.intercalate ", " (enbMembers n) ++ "\n") 8])) ∧
    (∀ n : RNeuro, (enbBlockOf (some n) = [] ↔ enbMembers n = [])) ∧
    enbMembers { estado := some "alerta", glasgow := some "15/15",
                 foco_motor := some "sin foco" } =
      ["alerta", "sin foco", "Glasgow 15/15"] ∧
    enbBlockOf (some { estado := some "", glasgow := some "", foco_motor := some "" }) = [] ∧
    enbBlockOf none = [] ∧
    descBlockOf none = [] ∧ descBlockOf (some "") = [] ∧
    diagBlockOf none = [] ∧ diagBlockOf (some []) = [] ∧
    sBlockOf none = [] ∧ sBlockOf (some "") = [] ∧
    regBlockOf none = [] ∧
    efgBlockOf none = [] ∧ efgBlockOf (some "") = [] ∧
    bhBlockOf none = [] ∧ bhBlockOf (some "") = [] ∧
    rdBlockOf none = [] ∧ rdBlockOf (some "") = [] := by
  refine ⟨col2Runs_eval r, fun n => rfl, fun n => ?_, rfl, rfl, rfl, rfl, rfl, rfl, rfl,
          rfl, rfl, rfl, rfl, rfl, rfl, rfl, rfl, rfl⟩
  constructor
  · intro h
    by_cases hm : (enbMembers n).isEmpty
    · simpa using hm
    · simp [enbBlockOf, hm] at h
  · intro h
    simp [enbBlockOf, h]

/-- C4: fluid-balance sub-fields with value 0 (or absent) contribute no
line, even when their section header is printed; the whole block is the
spacer plus the sections whose records have some non-zero sub-field, so
an all-zero intake omits the "INGRESOS:" header entirely while a non-zero
output still shows "EGRESOS:" and its non-zero lines. -/
theorem C4_theorem (i : RIngresos) (e : REgresos) :
    nonzeroLines (optFields (RIngresos.fields i)) = intakeLines i ∧
    nonzeroLines (optFields (REgresos.fields e)) = egresoLines e ∧
    (∀ k : String, intLine k (some 0) = []) ∧
    (∀ k : String, intLine k none = []) ∧
    fluidRuns (optFields (RIngresos.fields i)) (optFields (REgresos.fields e)) =
      (if ingAny i || egAny e then
        agregar_texto "\n" 8 ::
        ((if ingAny i then agregar_texto_negrita "INGRESOS:\n" 8 :: intakeLines i else []) ++
         (if egAny e then agregar_texto_negrita "\nEGRESOS:\n" 8 :: egresoLines e else []))
      else []) ∧
    ingAny { VO := some 0, VP := some 0, AM := some 0, OTROS := some 0,
             TOTAL := some 0 } = false ∧
    fluidRuns
        (optFields (RIngresos.fields
          { VO := some 0, VP := some 0, AM := some 0, OTROS := some 0, TOTAL := some 0 }))
        (optFields (REgresos.fields
          { D := some 200, C := some 100, PI := some 300, OTROS := some 0,
            TOTAL := some 600 })) =
      [agregar_texto "\n" 8, agregar_texto_negrita "\nEGRESOS:\n" 8,
       agregar_texto "D: 200\n" 8, agregar_texto "C: 100\n" 8,
       agregar_texto "PI: 300\n" 8, agregar_texto "TOTAL: 600\n" 8] ∧
    agregar_texto_negrita "INGRESOS:\n" 8 ∉
      fluidRuns
        (optFields (RIngresos.fields
          { VO := some 0, VP := some 0, AM := some 0, OTROS := some 0, TOTAL := some 0 }))
        (optFields (REgresos.fields
          { D := some 200, C := some 100, PI := some 300, OTROS := some 0,
            TOTAL := some 600 })) := by
  refine ⟨nonzeroLines_ingresos i, nonzeroLines_egresos e, fun k => rfl, fun k => rfl,
          ?_, rfl, by decide, by decide⟩
  unfold fluidRuns
  rw [anyTruthy_ingresos, anyTruthy_egresos, nonzeroLines_ingresos, nonzeroLines_egresos]

/-- A well-behaved collaborator oracle: transcription, structuring and
JSON parsing all succeed; the filename passes through unchanged. -/
def okOracle : Collab :=
  { secure_name := fun s => s,
    transcribe := fun _ => .ok "texto crudo",
    llm := fun _ _ => .ok "{}",
    jsonParse := fun _ => .ok (JValue.jobj []) }

/-- An oracle whose transcription step fails. -/
def failTranscribe : Collab :=
  { secure_name := fun s => s,
    transcribe := fun _ => .error "whisper no disponible",
    llm := fun _ _ => .ok "{}",
    jsonParse := fun _ => .ok (JValue.jobj []) }

def reqA : Request := { has_audio := true, tipo_informe_field := some "EVOLUCION_GERIATRICA",
                        audio_filename := "a.wav" }

def reqB : Request := { has_audio := true, tipo_informe_field := some "EVOLUCION_GERIATRICA",
                        audio_filename := "b.wav" }

def reqBadTipo : Request := { has_audio := true, tipo_informe_field := some "OTRO",
                              audio_filename := "a.wav" }

/-- C8: a report-type tag outside the closed enumeration is rejected with
a client error before any transcription or rendering effect happens; it is
never mapped to a default variant. -/
theorem C8_theorem (c : Collab) (req : Request) (t : String)
    (h1 : req.has_audio = true)
    (h2 : req.tipo_informe_field = some t)
    (h3 : TipoInforme.ofString t = none) :
    (procesar_informe c req).1 = .clientError ("Tipo de informe inválido: " ++ t) ∧
    (procesar_informe c req).2 = [] := by
  unfold procesar_informe
  rw [h1, h2]
  simp [h3]

theorem C8_witness :
    (reqBadTipo.has_audio = true ∧ reqBadTipo.tipo_informe_field = some "OTRO" ∧
     TipoInforme.ofString "OTRO" = none) ∧
    ((procesar_informe okOracle reqBadTipo).1 =
       .clientError ("Tipo de informe inválido: " ++ "OTRO") ∧
     (procesar_informe okOracle reqBadTipo).2 = []) :=
  ⟨⟨rfl, rfl, by decide⟩, C8_theorem okOracle reqBadTipo "OTRO" rfl rfl (by decide)⟩

/-- C9: the rendered-document working file is the fixed path
`informe.docx` for every request (so concurrent requests collide), and it
is never removed; the upload file is removed only when transcription
succeeds. -/
theorem C9_theorem :
    (procesar_informe okOracle reqA).2 =
      [.saveUpload "uploads/a.wav", .transcribeCall "uploads/a.wav",
       .removeFile "uploads/a.wav", .llmCall,
       .renderSave "informe.docx", .readBack "informe.docx"] ∧
    (procesar_informe okOracle reqB).2 =
      [.saveUpload "uploads/b.wav", .transcribeCall "uploads/b.wav",
       .removeFile "uploads/b.wav", .llmCall,
       .renderSave "informe.docx", .readBack "informe.docx"] ∧
    Effect.removeFile "informe.docx" ∉ (procesar_informe okOracle reqA).2 ∧
    Effect.removeFile "informe.docx" ∉ (procesar_informe okOracle reqB).2 ∧
    (procesar_informe failTranscribe reqA).2 =
      [.saveUpload "uploads/a.wav", .transcribeCall "uploads/a.wav"] := by
  refine ⟨rfl, rfl, by decide, by decide, rfl⟩

def badPayload : JValue := .jobj []

/-- C2 counterexample: the schema's validation operation rejects the
empty-object payload (missing required `tipo_informe`), yet the endpoint
renders that very payload and returns success: the structuring
collaborator's output does not pass through schema validation before
rendering. -/
theorem C2_counterexample :
    InformeGeriatrico.validate badPayload =
      .error ⟨"tipo_informe", "missing required field"⟩ ∧
    ∃ doc, (procesar_informe okOracle reqA).1 = Response.ok badPayload doc := by
  exact ⟨rfl, ⟨docOf {}, rfl⟩⟩

/-- C2 (amended): the Pydantic model induces a validation operation that
either yields a fully-typed report or a `SchemaViolation` naming the
offending field, but the endpoint never invokes it: whatever JSON the
structuring collaborator returns — even one the schema rejects — is
rendered and returned as a success response. -/
theorem C2_theorem (c : Collab) (req : Request) (t texto resp : String)
    (payload : JValue) (doc : List Block) (viol : SchemaViolation)
    (h1 : req.has_audio = true)
    (h2 : req.tipo_informe_field = some t)
    (h3 : TipoInforme.ofString t = some TipoInforme.EVOLUCION_GERIATRICA)
    (h4 : c.transcribe (UPLOAD_FOLDER ++ "/" ++ c.secure_name req.audio_filename) =
            .ok texto)
    (h5 : c.llm "EVOLUCION_GERIATRICA" texto = .ok resp)
    (h6 : c.jsonParse resp = .ok payload)
    (_h7 : InformeGeriatrico.validate payload = .error viol)
    (h8 : generar_docx_desde_json payload = .ok doc) :
    (procesar_informe c req).1 = Response.ok payload doc := by
  unfold procesar_informe
  rw [h1, h2]
  simp [h3, TipoInforme.value, h4, h5, h6, h8]

theorem C2_witness :
    (reqA.has_audio = true ∧ reqA.tipo_informe_field = some "EVOLUCION_GERIATRICA" ∧
     TipoInforme.ofString "EVOLUCION_GERIATRICA" = some TipoInforme.EVOLUCION_GERIATRICA ∧
     okOracle.transcribe (UPLOAD_FOLDER ++ "/" ++ okOracle.secure_name reqA.audio_filename) =
       .ok "texto crudo" ∧
     okOracle.llm "EVOLUCION_GERIATRICA" "texto crudo" = .ok "{}" ∧
     okOracle.jsonParse "{}" = .ok badPayload ∧
     InformeGeriatrico.validate badPayload =
       .error ⟨"tipo_informe", "missing required field"⟩ ∧
     generar_docx_desde_json badPayload = .ok (docOf {})) ∧
    (procesar_informe okOracle reqA).1 = Response.ok badPayload (docOf {}) :=
  ⟨⟨rfl, rfl, by decide, rfl, rfl, rfl, rfl, generar_eval {}⟩,
   C2_theorem okOracle reqA "EVOLUCION_GERIATRICA" "texto crudo" "{}" badPayload
     (docOf {}) ⟨"tipo_informe", "missing required field"⟩ rfl rfl (by decide) rfl rfl rfl
     rfl (generar_eval {})⟩
